import Mathlib

/-!
Verification of the job-search pipeline's matching, deduplication,
dispatch, orchestration, caching and configuration components.

Each definition is a shallow embedding of the corresponding Python
function from the repository (`backend/utils/matching.py`,
`backend/agents/scraper_agent.py`, `backend/agents/simple_scraper_agent.py`,
`backend/agents/autoapply_agent.py`, `backend/agents/supervisor_agent.py`,
`backend/agents/simple_supervisor_agent.py`).  Python strings are Lean
`String`s, `str.lower()` is character-wise `Char.toLower`, Python lists
are Lean `List`s, Python dicts with string keys are association lists,
and floating-point scores are modelled over `ℚ` (all score arithmetic in
the source is exact decimal arithmetic on small fractions).
-/

/-- Python `str.lower()`: character-wise lower-casing. -/
def strLower (s : String) : String := String.mk (s.data.map Char.toLower)

/-- Python `str.strip()`: drop leading and trailing whitespace. -/
def strTrim (s : String) : String :=
  String.mk (((s.data.dropWhile Char.isWhitespace).reverse.dropWhile Char.isWhitespace).reverse)

/-! ## `backend/utils/matching.py` -/

/-- The `skill_relationships` table of `find_partial_skill_match`
(`matching.py` lines 312-323). -/
def skill_relationships : List (String × List String) :=
  [("javascript", ["js", "node.js", "nodejs", "react", "angular", "vue"]),
   ("python", ["django", "flask", "fastapi", "pandas", "numpy"]),
   ("java", ["spring", "hibernate", "maven", "gradle"]),
   ("react", ["javascript", "js", "jsx", "redux"]),
   ("angular", ["javascript", "typescript", "rxjs"]),
   ("vue", ["javascript", "vuex", "nuxt"]),
   ("sql", ["mysql", "postgresql", "sqlite", "oracle"]),
   ("aws", ["ec2", "s3", "lambda", "cloudformation"]),
   ("machine learning", ["tensorflow", "pytorch", "scikit-learn", "keras", "pandas", "numpy"]),
   ("data science", ["python", "r", "pandas", "numpy", "matplotlib", "jupyter"])]

/-- Python `skill_relationships.get(key, [])`. -/
def relatedSkills (key : String) : List String :=
  (skill_relationships.lookup key).getD []

/-- `find_partial_skill_match` (`matching.py` lines 308-341): scan the
user's skills in order; a user skill partially matches when either side
appears in the other's relationship list, or when both exceed length 3
and one is a substring of the other. -/
def find_partial_skill_match (required_skill : String) : List String → Option String
  | [] => none
  | user_skill :: rest =>
    let user_skill_lower := strLower user_skill
    if required_skill ∈ relatedSkills user_skill_lower then some user_skill
    else if user_skill_lower ∈ relatedSkills required_skill then some user_skill
    else if required_skill.length > 3 && user_skill_lower.length > 3 &&
        (decide (required_skill.toList <:+: user_skill_lower.toList) ||
         decide (user_skill_lower.toList <:+: required_skill.toList)) then some user_skill
    else find_partial_skill_match required_skill rest

/-- One entry of the `partial_matches` list built by
`calculate_skill_match` (`matching.py` lines 283-287). -/
structure PartialMatch where
  required_skill : String
  user_skill : String
  confidence : ℚ
deriving DecidableEq, Repr

/-- The dictionary returned by `calculate_skill_match`
(`matching.py` lines 299-305). -/
structure SkillMatchResult where
  exact_matches : List String
  partial_matches : List PartialMatch
  missing_skills : List String
  match_percentage : ℚ
  total_required : Nat
deriving DecidableEq, Repr

/-- The classification loop of `calculate_skill_match`
(`matching.py` lines 274-289): each required skill goes to exactly one of
the exact / partial / missing lists, in required order. -/
def classifySkills (user_skills_lower : List String) :
    List String → List String × List PartialMatch × List String
  | [] => ([], [], [])
  | req_skill :: rest =>
    let c := classifySkills user_skills_lower rest
    let req_skill_lower := strLower req_skill
    if req_skill_lower ∈ user_skills_lower then
      (req_skill :: c.1, c.2.1, c.2.2)
    else
      match find_partial_skill_match req_skill_lower user_skills_lower with
      | some u => (c.1, ⟨req_skill, u, 7/10⟩ :: c.2.1, c.2.2)
      | none => (c.1, c.2.1, req_skill :: c.2.2)

/-- `total_required = len(required_skills) if required_skills else 1`
(`matching.py` line 292). -/
def total_required (required_skills : List String) : Nat :=
  if required_skills.isEmpty then 1 else required_skills.length

/-- `match_percentage = min(100, match_score * 100)` where
`match_score = (exact*1.0 + partial*0.5) / total_required`
(`matching.py` lines 293-297). -/
def matchPercentage (exactCount partialCount : Nat) (required_skills : List String) : ℚ :=
  min 100 (((exactCount : ℚ) * 1 + (partialCount : ℚ) * (1/2)) /
    (total_required required_skills : ℚ) * 100)

/-- `calculate_skill_match` (`matching.py` lines 265-305). -/
def calculate_skill_match (user_skills required_skills : List String) : SkillMatchResult :=
  let user_skills_lower := user_skills.map strLower
  let c := classifySkills user_skills_lower required_skills
  { exact_matches := c.1
    partial_matches := c.2.1
    missing_skills := c.2.2
    match_percentage := matchPercentage c.1.length c.2.1.length required_skills
    total_required := total_required required_skills }

/-! ## Deduplication (`scraper_agent.py` lines 405-416,
`simple_scraper_agent.py` lines 641-654) -/

/-- A raw job listing restricted to the fields the deduplicators read. -/
structure RawJob where
  title : String
  company : String
deriving DecidableEq, Repr

/-- Identity key of `ScraperAgent._remove_duplicates`
(`scraper_agent.py` line 411): lower-cased title and company joined by
an underscore, with no trimming. -/
def scraperJobKey (j : RawJob) : String :=
  strLower j.title ++ "_" ++ strLower j.company

/-- Identity key of `SimpleScraperAgent._remove_duplicates`
(`simple_scraper_agent.py` line 648): lower-cased, trimmed title and
company joined by a pipe. -/
def simpleJobKey (j : RawJob) : String :=
  strTrim (strLower j.title) ++ "|" ++ strTrim (strLower j.company)

/-- The shared loop of both `_remove_duplicates` implementations: keep a
job when its key is not in the `seen` set, then add the key to `seen`. -/
def remove_duplicates_loop (key : RawJob → String) :
    List RawJob → List String → List RawJob
  | [], _ => []
  | j :: js, seen =>
    if key j ∈ seen then remove_duplicates_loop key js seen
    else j :: remove_duplicates_loop key js (key j :: seen)

/-- `ScraperAgent._remove_duplicates` (`scraper_agent.py` lines 405-416). -/
def scraper_remove_duplicates (jobs : List RawJob) : List RawJob :=
  remove_duplicates_loop scraperJobKey jobs []

/-- `SimpleScraperAgent._remove_duplicates`
(`simple_scraper_agent.py` lines 641-654). -/
def simple_remove_duplicates (jobs : List RawJob) : List RawJob :=
  remove_duplicates_loop simpleJobKey jobs []

/-- The specification's deduplicator, written from the spec's words:
keep only the first occurrence of each identity key (order preserved). -/
def keepFirstOccurrence (key : RawJob → String) : List RawJob → List RawJob
  | [] => []
  | j :: js => j :: keepFirstOccurrence key (js.filter (fun j2 => key j2 != key j))
termination_by l => l.length
decreasing_by
  simp only [List.length_cons]
  exact Nat.lt_succ_of_le (List.length_filter_le _ _)

/-- The two scenario listings of the deduplication claim. -/
def backendListingA : RawJob := ⟨"Backend Engineer", "Acme"⟩

/-- Second scenario listing: same title and company up to case and
surrounding whitespace. -/
def backendListingB : RawJob := ⟨"backend engineer", " Acme "⟩

/-! ## Application dispatch (`autoapply_agent.py` lines 101-190, 732-736) -/

/-- Environment outcome for one job id in a dispatch batch: the job
lookup can fail (`_get_job_details` returns `None`), the
already-applied pre-check can hit, the per-job body can raise, or
`_apply_to_job` completes with a success flag. -/
inductive TaskOutcome where
  | notFound
  | alreadyApplied
  | raises (msg : String)
  | completes (success : Bool)
deriving DecidableEq, Repr

/-- One job id of a dispatch batch together with its environment
outcome. -/
structure ApplyTask where
  job_id : Nat
  outcome : TaskOutcome
deriving DecidableEq, Repr

/-- The result dictionary appended per processed job, restricted to the
fields the claims read. -/
structure ApplicationResult where
  job_id : Nat
  success : Bool
deriving DecidableEq, Repr

/-- The `_get_applications_today` stub (`autoapply_agent.py` lines
732-736): always returns 0;  it is called only from `initialize`, never
at dispatch time. -/
def get_applications_today : Nat := 0

/-- The per-job loop of `auto_apply_to_jobs` (`autoapply_agent.py`
lines 138-177): break when the daily counter reached the ceiling; skip
missing jobs and already-applied jobs without a result; a raised
exception appends a failed result and continues; a completed
application appends its result and increments the counter only on
success.  Returns the result list and the final counter. -/
def apply_loop (maxPerDay : Nat) :
    List ApplyTask → Nat → List ApplicationResult × Nat
  | [], count => ([], count)
  | t :: ts, count =>
    if maxPerDay ≤ count then ([], count)
    else
      match t.outcome with
      | .notFound => apply_loop maxPerDay ts count
      | .alreadyApplied => apply_loop maxPerDay ts count
      | .raises _ =>
        let r := apply_loop maxPerDay ts count
        (⟨t.job_id, false⟩ :: r.1, r.2)
      | .completes ok =>
        let r := apply_loop maxPerDay ts (if ok then count + 1 else count)
        (⟨t.job_id, ok⟩ :: r.1, r.2)

/-- `auto_apply_to_jobs` (`autoapply_agent.py` lines 101-190): without a
browser/HTTP session every job id gets a failed result; with the daily
counter at the ceiling the empty result list is returned; a missing user
profile raises `ValueError`; otherwise the per-job loop runs. -/
def auto_apply_to_jobs (browserOk profileFound : Bool) (maxPerDay count : Nat)
    (tasks : List ApplyTask) : Except String (List ApplicationResult × Nat) :=
  if !browserOk then
    .ok (tasks.map (fun t => ⟨t.job_id, false⟩), count)
  else if maxPerDay ≤ count then
    .ok ([], count)
  else if !profileFound then
    .error "User profile not found"
  else
    .ok (apply_loop maxPerDay tasks count)

/-- The result the dispatcher produces for a task that is neither
skipped nor cut off by the quota: raising tasks get a failed result,
completed tasks carry their success flag. -/
def expectedResult (t : ApplyTask) : ApplicationResult :=
  match t.outcome with
  | .completes ok => ⟨t.job_id, ok⟩
  | _ => ⟨t.job_id, false⟩

/-- The three-task scenario of the dispatch claim: task 2 raises a
submission error. -/
def scenarioTasks : List ApplyTask :=
  [⟨1, .completes true⟩, ⟨2, .raises "submission error"⟩, ⟨3, .completes true⟩]

/-! ## Workflow orchestration (`supervisor_agent.py` lines 80-161) -/

/-- The outcome dictionary of `trigger_job_search`, restricted to the
fields the claim reads: the busy return carries `status = "busy"`, the
exception return carries `status = "failed"`, the success return has no
status key. -/
structure TriggerOutcome where
  success : Bool
  status : Option String
deriving DecidableEq, Repr

/-- `SupervisorAgent.trigger_job_search` (`supervisor_agent.py` lines
80-161) as a function of the `workflow_running` flag and of whether the
phase body raises: the busy check returns immediately without touching
the flag; otherwise the flag is set for the duration of the run and
cleared in the `finally` block on both the success and the failure
path.  Returns the outcome and the flag's value after the call. -/
def trigger_job_search (running : Bool) (bodyFails : Bool) : TriggerOutcome × Bool :=
  if running then ({ success := false, status := some "busy" }, running)
  else if bodyFails then ({ success := false, status := some "failed" }, false)
  else ({ success := true, status := none }, false)

/-- Orchestrator state for the event-trace model: the `workflow_running`
flag of the source together with a ghost count of runs currently
executing. -/
structure OrchState where
  running : Bool
  active : Nat
deriving DecidableEq, Repr

/-- One observable event at the orchestrator: a trigger request
arriving, or an executing run finishing (completing or failing). -/
inductive OrchEvent where
  | trigger
  | finish
deriving DecidableEq, Repr

/-- Event semantics of `trigger_job_search` under cooperative
scheduling: the busy check and the flag set happen without an
intervening await, so a trigger arriving while a run executes changes
nothing; a finishing run clears the flag (the source's `finally`). -/
def orchStep (s : OrchState) : OrchEvent → OrchState
  | .trigger => if s.running then s else { running := true, active := s.active + 1 }
  | .finish => if s.running then { running := false, active := s.active - 1 } else s

/-- Initial orchestrator state (`workflow_running = False`, no run). -/
def orchInit : OrchState := { running := false, active := 0 }

/-- The orchestrator state after an arbitrary event sequence. -/
def orchRun (evs : List OrchEvent) : OrchState := evs.foldl orchStep orchInit

/-! ## Result cache (`simple_supervisor_agent.py` lines 84-179, 336-354) -/

/-- The search parameters read by `_create_cache_key`, with missing
entries as `none` (Python `dict.get` defaults). -/
structure SearchParams where
  keywords : Option String
  location : Option String
  max_results : Option Nat
deriving DecidableEq, Repr

/-- `_create_cache_key` (`simple_supervisor_agent.py` lines 336-354):
lower-cased, stripped keywords and location plus the stringified
requested result count (default 50), joined by pipes. -/
def create_cache_key (p : SearchParams) : String :=
  strTrim (strLower (p.keywords.getD "")) ++ "|" ++
    strTrim (strLower (p.location.getD "")) ++ "|" ++ toString (p.max_results.getD 50)

/-- The result dictionary of `trigger_job_search` in the simple
supervisor, restricted to the fields the claim reads.  The creation
time is the `timestamp` field stored inside the cached payload. -/
structure SearchResult where
  success : Bool
  jobs : List RawJob
  total_found : Nat
  timestamp : Int
  cache_key : String
  error : Option String
deriving DecidableEq, Repr

/-- `max_cache_age = timedelta(hours=1)` in seconds
(`simple_supervisor_agent.py` line 35). -/
def max_cache_age : Int := 3600

/-- `_is_cache_valid` (`simple_supervisor_agent.py` lines 346-354): a
key is valid only if present and strictly younger than the TTL. -/
def is_cache_valid (cache : List (String × SearchResult)) (key : String) (now : Int) : Bool :=
  match cache.lookup key with
  | none => false
  | some r => now - r.timestamp < max_cache_age

/-- Python dict assignment `cache[key] = r`: the new binding shadows any
earlier one. -/
def cacheStore (cache : List (String × SearchResult)) (key : String) (r : SearchResult) :
    List (String × SearchResult) :=
  (key, r) :: cache.filter (fun kv => kv.1 != key)

/-- The non-cached tail of the simple supervisor's `trigger_job_search`:
scrape, build the result payload stamped with the current time, and
cache it; a raised scrape error yields an uncached failure payload. -/
def perform_search (cache : List (String × SearchResult)) (key : String) (now : Int)
    (scrape : Except String (List RawJob)) : SearchResult × List (String × SearchResult) :=
  match scrape with
  | .ok jobs =>
    let r : SearchResult :=
      { success := true, jobs := jobs, total_found := jobs.length, timestamp := now
        cache_key := key, error := none }
    (r, cacheStore cache key r)
  | .error e =>
    ({ success := false, jobs := [], total_found := 0, timestamp := now
       cache_key := key, error := some e }, cache)

/-- `SimpleSupervisorAgent.trigger_job_search`
(`simple_supervisor_agent.py` lines 84-179): return the cached payload
unchanged on a valid hit, otherwise recompute and overwrite. -/
def trigger_job_search_cached (cache : List (String × SearchResult)) (p : SearchParams)
    (now : Int) (scrape : Except String (List RawJob)) :
    SearchResult × List (String × SearchResult) :=
  let key := create_cache_key p
  match cache.lookup key with
  | some r =>
    if now - r.timestamp < max_cache_age then (r, cache)
    else perform_search cache key now scrape
  | none => perform_search cache key now scrape

/-! ## Configuration update (`supervisor_agent.py` lines 256-296) -/

/-- A configuration value: the source stores numbers and booleans. -/
inductive ConfigVal where
  | num (q : ℚ)
  | flag (b : Bool)
deriving DecidableEq, Repr

/-- `valid_keys` of `update_configuration` (`supervisor_agent.py` lines
260-263); note `max_applications_per_day` is not among them. -/
def valid_config_keys : List String :=
  ["scraping_interval_hours", "scoring_threshold", "max_auto_applications",
   "auto_apply_enabled", "follow_up_interval_days"]

/-- The default configuration dictionary (`supervisor_agent.py` lines
37-43). -/
def default_config : List (String × ConfigVal) :=
  [("scraping_interval_hours", .num 24), ("scoring_threshold", .num (7/10)),
   ("max_auto_applications", .num 5), ("auto_apply_enabled", .flag false),
   ("follow_up_interval_days", .num 7)]

/-- Python `dict.update`: bind every entry of `updates` in order, each
new binding shadowing earlier ones. -/
def dictUpdate (d updates : List (String × ConfigVal)) : List (String × ConfigVal) :=
  updates.foldl (fun acc kv => kv :: acc) d

/-- Outcome dictionary of `update_configuration`, restricted to the
fields the claim reads. -/
structure ConfigUpdateOutcome where
  success : Bool
  error : Option String
deriving DecidableEq, Repr

/-- `update_configuration` (`supervisor_agent.py` lines 256-296): if any
update key is outside `valid_config_keys` the whole update is rejected
and the configuration is untouched; otherwise all entries are applied. -/
def update_configuration (config updates : List (String × ConfigVal)) :
    ConfigUpdateOutcome × List (String × ConfigVal) :=
  let invalid := (updates.map Prod.fst).filter (fun k => !(valid_config_keys.contains k))
  if !invalid.isEmpty then
    ({ success := false, error := some "Invalid configuration keys" }, config)
  else
    ({ success := true, error := none }, dictUpdate config updates)

/-! ## Feature extraction (`matching.py` lines 95-262)

The regular-expression engine (Python `re.search`) is an external
collaborator; the extractors are embedded as functions of an arbitrary
engine `search : pattern → text → Bool`, with the pattern catalogs
transcribed from the source.  The claims about the extractors concern
only behaviour that is independent of the engine (the empty-input
short-circuit, which returns before any pattern is consulted). -/

/-- `skill_patterns` of `extract_skills_from_job_text`
(`matching.py` lines 103-195). -/
def skill_patterns : List (String × List String) :=
  [("python", [r"\bpython\b", r"\bpy\b(?!\s*test)"]),
   ("javascript", [r"\bjavascript\b", r"\bjs\b(?!\s*\w)", r"\bnode\.?js\b"]),
   ("java", [r"\bjava\b(?!\s*script)", r"\bjdk\b", r"\bjre\b"]),
   ("typescript", [r"\btypescript\b", r"\bts\b(?!\s*\w)"]),
   ("c++", [r"\bc\+\+\b", r"\bcpp\b"]),
   ("c#", [r"\bc#\b", r"\bc sharp\b", r"\b\.net\b"]),
   ("go", [r"\bgolang\b", r"\bgo\b(?:\s+language|\s+programming)"]),
   ("rust", [r"\brust\b(?:\s+language|\s+programming)"]),
   ("php", [r"\bphp\b"]),
   ("ruby", [r"\bruby\b(?:\s+on\s+rails|\s+programming)"]),
   ("swift", [r"\bswift\b(?:\s+programming|\s+language)"]),
   ("kotlin", [r"\bkotlin\b"]),
   ("scala", [r"\bscala\b"]),
   ("r", [r"\br\s+programming\b", r"\br\s+language\b"]),
   ("html", [r"\bhtml\b", r"\bhtml5\b"]),
   ("css", [r"\bcss\b", r"\bcss3\b"]),
   ("react", [r"\breact\b", r"\breactjs\b", r"\breact\.js\b"]),
   ("angular", [r"\bangular\b", r"\bangularjs\b"]),
   ("vue", [r"\bvue\b", r"\bvue\.js\b", r"\bvuejs\b"]),
   ("svelte", [r"\bsvelte\b"]),
   ("jquery", [r"\bjquery\b"]),
   ("bootstrap", [r"\bbootstrap\b"]),
   ("tailwind", [r"\btailwind\b", r"\btailwindcss\b"]),
   ("django", [r"\bdjango\b"]),
   ("flask", [r"\bflask\b"]),
   ("fastapi", [r"\bfastapi\b"]),
   ("express", [r"\bexpress\b", r"\bexpress\.js\b"]),
   ("spring", [r"\bspring\b(?:\s+boot|\s+framework)"]),
   ("laravel", [r"\blaravel\b"]),
   ("rails", [r"\bruby\s+on\s+rails\b", r"\brails\b"]),
   ("sql", [r"\bsql\b", r"\bstructured\s+query\s+language\b"]),
   ("mysql", [r"\bmysql\b"]),
   ("postgresql", [r"\bpostgresql\b", r"\bpostgres\b"]),
   ("mongodb", [r"\bmongodb\b", r"\bmongo\b"]),
   ("redis", [r"\bredis\b"]),
   ("elasticsearch", [r"\belasticsearch\b"]),
   ("sqlite", [r"\bsqlite\b"]),
   ("oracle", [r"\boracle\b(?:\s+database)"]),
   ("cassandra", [r"\bcassandra\b"]),
   ("aws", [r"\baws\b", r"\bamazon\s+web\s+services\b"]),
   ("azure", [r"\bazure\b", r"\bmicrosoft\s+azure\b"]),
   ("gcp", [r"\bgcp\b", r"\bgoogle\s+cloud\b"]),
   ("docker", [r"\bdocker\b"]),
   ("kubernetes", [r"\bkubernetes\b", r"\bk8s\b"]),
   ("jenkins", [r"\bjenkins\b"]),
   ("gitlab", [r"\bgitlab\b"]),
   ("github", [r"\bgithub\b"]),
   ("git", [r"\bgit\b(?!\s*hub)"]),
   ("terraform", [r"\bterraform\b"]),
   ("ansible", [r"\bansible\b"]),
   ("machine learning", [r"\bmachine\s+learning\b", r"\bml\b(?:\s+engineer|\s+models)"]),
   ("deep learning", [r"\bdeep\s+learning\b", r"\bdl\b(?:\s+models)"]),
   ("artificial intelligence", [r"\bartificial\s+intelligence\b", r"\bai\b(?:\s+engineer|\s+models)"]),
   ("data science", [r"\bdata\s+science\b", r"\bdata\s+scientist\b"]),
   ("pandas", [r"\bpandas\b"]),
   ("numpy", [r"\bnumpy\b"]),
   ("scikit-learn", [r"\bscikit.learn\b", r"\bsklearn\b"]),
   ("tensorflow", [r"\btensorflow\b"]),
   ("pytorch", [r"\bpytorch\b"]),
   ("keras", [r"\bkeras\b"]),
   ("matplotlib", [r"\bmatplotlib\b"]),
   ("seaborn", [r"\bseaborn\b"]),
   ("jupyter", [r"\bjupyter\b"]),
   ("pytest", [r"\bpytest\b"]),
   ("jest", [r"\bjest\b"]),
   ("selenium", [r"\bselenium\b"]),
   ("cypress", [r"\bcypress\b"]),
   ("unit testing", [r"\bunit\s+test\b", r"\bunittest\b"]),
   ("graphql", [r"\bgraphql\b"]),
   ("rest api", [r"\brest\b", r"\brestful\b", r"\brest\s+api\b"]),
   ("microservices", [r"\bmicroservices\b"]),
   ("linux", [r"\blinux\b", r"\bunix\b"]),
   ("bash", [r"\bbash\b", r"\bshell\s+script\b"]),
   ("agile", [r"\bagile\b", r"\bscrum\b"]),
   ("jira", [r"\bjira\b"]),
   ("confluence", [r"\bconfluence\b"])]

/-- `benefit_patterns` of `extract_benefits_from_text`
(`matching.py` lines 215-229). -/
def benefit_patterns : List (String × List String) :=
  [("health insurance", [r"\bhealth\s+insurance\b", r"\bmedical\s+coverage\b"]),
   ("dental insurance", [r"\bdental\s+insurance\b", r"\bdental\s+coverage\b"]),
   ("vision insurance", [r"\bvision\s+insurance\b", r"\bvision\s+coverage\b"]),
   ("retirement plan", [r"\b401k\b", r"\bretirement\s+plan\b", r"\bpension\b"]),
   ("paid time off", [r"\bpto\b", r"\bpaid\s+time\s+off\b", r"\bvacation\s+days\b"]),
   ("flexible hours", [r"\bflexible\s+hours\b", r"\bflexible\s+schedule\b"]),
   ("remote work", [r"\bremote\s+work\b", r"\bwork\s+from\s+home\b", r"\bwfh\b"]),
   ("stock options", [r"\bstock\s+options\b", r"\bequity\b", r"\brsus\b"]),
   ("bonus", [r"\bbonus\b", r"\bperformance\s+bonus\b"]),
   ("gym membership", [r"\bgym\s+membership\b", r"\bfitness\s+center\b"]),
   ("food allowance", [r"\bfree\s+food\b", r"\bmeals\s+provided\b", r"\bfood\s+allowance\b"]),
   ("learning budget", [r"\blearning\s+budget\b", r"\btraining\s+budget\b", r"\bprofessional\s+development\b"]),
   ("conference attendance", [r"\bconference\s+attendance\b", r"\btech\s+conferences\b"])]

/-- `size_patterns` of `extract_company_size_from_text`
(`matching.py` lines 249-255). -/
def size_patterns : List (String × List String) :=
  [("startup", [r"\bstartup\b", r"\bearly\s+stage\b", r"\b1-10\s+employees\b"]),
   ("small", [r"\bsmall\s+company\b", r"\b11-50\s+employees\b", r"\b10-50\s+employees\b"]),
   ("medium", [r"\bmedium\s+company\b", r"\b51-200\s+employees\b", r"\b50-200\s+employees\b"]),
   ("large", [r"\blarge\s+company\b", r"\b201-1000\s+employees\b", r"\b200-1000\s+employees\b"]),
   ("enterprise", [r"\benterprise\b", r"\b1000\+\s+employees\b", r"\bfortune\s+500\b"])]

/-- `extract_skills_from_job_text` (`matching.py` lines 95-205): empty
or missing text short-circuits to the empty list; otherwise the catalog
is scanned against the lower-cased text and the hit list deduplicated
(the source's `list(set(...))`). -/
def extract_skills_from_job_text (search : String → String → Bool)
    (text : Option String) : List String :=
  match text with
  | none => []
  | some t =>
    if t = "" then []
    else
      let tl := strLower t
      ((skill_patterns.filter (fun sp => sp.2.any (fun pat => search pat tl))).map
        Prod.fst).eraseDups

/-- `extract_benefits_from_text` (`matching.py` lines 208-239). -/
def extract_benefits_from_text (search : String → String → Bool)
    (text : Option String) : List String :=
  match text with
  | none => []
  | some t =>
    if t = "" then []
    else
      let tl := strLower t
      (benefit_patterns.filter (fun bp => bp.2.any (fun pat => search pat tl))).map Prod.fst

/-- `extract_company_size_from_text` (`matching.py` lines 242-262):
first size category with a matching pattern, if any. -/
def extract_company_size_from_text (search : String → String → Bool)
    (text : Option String) : Option String :=
  match text with
  | none => none
  | some t =>
    if t = "" then none
    else
      let tl := strLower t
      (size_patterns.find? (fun sp => sp.2.any (fun pat => search pat tl))).map Prod.fst

/-- Cached payload used to exercise the cache claims at a concrete
input. -/
def cachedResultExample : SearchResult :=
  { success := true, jobs := [backendListingA], total_found := 1, timestamp := 0
    cache_key := "python|remote|50", error := none }

/-- A one-entry cache holding `cachedResultExample`. -/
def cacheExample : List (String × SearchResult) :=
  [("python|remote|50", cachedResultExample)]

/-- Search parameters whose normalized key equals the cached entry's
key only after lower-casing and trimming. -/
def paramsExample : SearchParams := ⟨some " Python ", some "Remote", none⟩

/-- A configuration update touching only keys the source recognizes. -/
def exampleUpdates : List (String × ConfigVal) :=
  [("scoring_threshold", ConfigVal.num (1/2)), ("auto_apply_enabled", ConfigVal.flag true)]

/-- A configuration update using the key the specification lists as
recognized but the source does not. -/
def badUpdates : List (String × ConfigVal) :=
  [("max_applications_per_day", ConfigVal.num 5)]

/-! ## Theorems -/

/-- `total_required` is `max(required_count, 1)`. -/
theorem total_required_eq_max (rs : List String) : total_required rs = max rs.length 1 := by
  cases rs <;> simp [total_required]

/-- `total_required` is positive. -/
theorem total_required_pos (rs : List String) : 0 < total_required rs := by
  cases rs <;> simp [total_required]

/-- C1: `calculate_skill_match` scores as
`(exact*1.0 + partial*0.5) / max(required_count, 1)`, reported as a
percentage clamped to `[0, 100]` (the score scale `[0,1]` times 100);
and on the scenario — profile skills `{python, react}` against required
`{python, javascript, docker}` — the breakdown is exactly
`exact = [python]`, a partial match of `javascript` via `react`,
`missing = [docker]`, and score 0.5 (percentage 50). -/
theorem calculate_skill_match_formula_and_scenario :
    (∀ us rs : List String,
      (calculate_skill_match us rs).match_percentage =
        min 100 ((((calculate_skill_match us rs).exact_matches.length : ℚ) * 1 +
          ((calculate_skill_match us rs).partial_matches.length : ℚ) * (1/2)) /
          ((max rs.length 1 : Nat) : ℚ) * 100) ∧
      0 ≤ (calculate_skill_match us rs).match_percentage ∧
      (calculate_skill_match us rs).match_percentage ≤ 100) ∧
    (calculate_skill_match ["python", "react"] ["python", "javascript", "docker"]).exact_matches
      = ["python"] ∧
    (calculate_skill_match ["python", "react"] ["python", "javascript", "docker"]).partial_matches
      = [⟨"javascript", "react", 7/10⟩] ∧
    (calculate_skill_match ["python", "react"] ["python", "javascript", "docker"]).missing_skills
      = ["docker"] ∧
    (calculate_skill_match ["python", "react"] ["python", "javascript", "docker"]).match_percentage
      = 50 := by
  refine ⟨fun us rs => ⟨?_, ?_, ?_⟩, rfl, rfl, rfl, ?_⟩
  · show matchPercentage _ _ rs = _
    simp only [calculate_skill_match, matchPercentage, total_required_eq_max]
  · show (0:ℚ) ≤ matchPercentage _ _ rs
    have h : (0:ℚ) ≤ (((calculate_skill_match us rs).exact_matches.length : ℚ) * 1 +
        ((calculate_skill_match us rs).partial_matches.length : ℚ) * (1/2)) /
        ((total_required rs : Nat) : ℚ) * 100 := by positivity
    exact le_min (by norm_num) h
  · exact min_le_left _ _
  · show matchPercentage 1 1 ["python", "javascript", "docker"] = 50
    norm_num [matchPercentage, total_required, min_def]

/-- The match percentage is monotone in the weighted hit count. -/
theorem matchPercentage_mono (rs : List String) {e e' p p' : Nat}
    (h : (e : ℚ) * 1 + (p : ℚ) * (1/2) ≤ (e' : ℚ) * 1 + (p' : ℚ) * (1/2)) :
    matchPercentage e p rs ≤ matchPercentage e' p' rs := by
  unfold matchPercentage
  refine min_le_min le_rfl ?_
  have ht : (0:ℚ) < ((total_required rs : Nat) : ℚ) := by
    exact_mod_cast total_required_pos rs
  gcongr

/-- C2: converting one required skill that `calculate_skill_match`
classified as missing (first conjunct) or as partial (second conjunct)
into an exact match, keeping every other classification fixed, does not
decrease the returned match score. -/
theorem match_score_monotone_in_exact (us rs : List String) :
    (1 ≤ (calculate_skill_match us rs).missing_skills.length →
      (calculate_skill_match us rs).match_percentage ≤
        matchPercentage ((calculate_skill_match us rs).exact_matches.length + 1)
          (calculate_skill_match us rs).partial_matches.length rs) ∧
    (1 ≤ (calculate_skill_match us rs).partial_matches.length →
      (calculate_skill_match us rs).match_percentage ≤
        matchPercentage ((calculate_skill_match us rs).exact_matches.length + 1)
          ((calculate_skill_match us rs).partial_matches.length - 1) rs) := by
  have hmp : (calculate_skill_match us rs).match_percentage =
      matchPercentage (calculate_skill_match us rs).exact_matches.length
        (calculate_skill_match us rs).partial_matches.length rs := rfl
  constructor
  · intro _
    rw [hmp]
    refine matchPercentage_mono rs ?_
    push_cast
    linarith
  · intro hp
    rw [hmp]
    refine matchPercentage_mono rs ?_
    rw [Nat.cast_sub hp]
    push_cast
    linarith

/-- Witness for C2 at concrete inputs: `[]` vs `["docker"]` has a
missing skill, `["react"]` vs `["javascript"]` has a partial match. -/
theorem match_score_monotone_in_exact_witness :
    (1 ≤ (calculate_skill_match [] ["docker"]).missing_skills.length ∧
      (calculate_skill_match [] ["docker"]).match_percentage ≤
        matchPercentage ((calculate_skill_match [] ["docker"]).exact_matches.length + 1)
          (calculate_skill_match [] ["docker"]).partial_matches.length ["docker"]) ∧
    (1 ≤ (calculate_skill_match ["react"] ["javascript"]).partial_matches.length ∧
      (calculate_skill_match ["react"] ["javascript"]).match_percentage ≤
        matchPercentage
          ((calculate_skill_match ["react"] ["javascript"]).exact_matches.length + 1)
          ((calculate_skill_match ["react"] ["javascript"]).partial_matches.length - 1)
          ["javascript"]) :=
  ⟨⟨by decide, (match_score_monotone_in_exact [] ["docker"]).1 (by decide)⟩,
   ⟨by decide, (match_score_monotone_in_exact ["react"] ["javascript"]).2 (by decide)⟩⟩

/-- The classification loop distributes the required skills over the
three breakdown lists without loss or duplication. -/
theorem classifySkills_perm (ul rs : List String) :
    ((classifySkills ul rs).1 ++
      (classifySkills ul rs).2.1.map PartialMatch.required_skill ++
      (classifySkills ul rs).2.2).Perm rs := by
  induction rs with
  | nil => simp [classifySkills]
  | cons r rest ih =>
    simp only [classifySkills]
    split
    · simpa using ih.cons r
    · split
      · refine List.Perm.trans ?_ (ih.cons r)
        simp only [List.map_cons, List.append_assoc]
        exact List.perm_middle
      · refine List.Perm.trans ?_ (ih.cons r)
        simp only [List.append_assoc]
        exact (List.Perm.append_left _ List.perm_middle).trans List.perm_middle

/-- C10: `calculate_skill_match` partitions the required skills: each
required skill lands in exactly one of the exact / partial / missing
lists (the concatenation is a permutation of the input), the three
lengths sum to the required count, and `total_required` is the required
count when positive and 1 when the required list is empty. -/
theorem skill_match_partitions_required (us rs : List String) :
    ((calculate_skill_match us rs).exact_matches.length +
        (calculate_skill_match us rs).partial_matches.length +
        (calculate_skill_match us rs).missing_skills.length = rs.length) ∧
    ((calculate_skill_match us rs).exact_matches ++
        (calculate_skill_match us rs).partial_matches.map PartialMatch.required_skill ++
        (calculate_skill_match us rs).missing_skills).Perm rs ∧
    (calculate_skill_match us rs).total_required =
      (if rs.length = 0 then 1 else rs.length) := by
  refine ⟨?_, classifySkills_perm (us.map strLower) rs, ?_⟩
  · have h := (classifySkills_perm (us.map strLower) rs).length_eq
    simp only [List.length_append, List.length_map] at h
    show (classifySkills (us.map strLower) rs).1.length +
      (classifySkills (us.map strLower) rs).2.1.length +
      (classifySkills (us.map strLower) rs).2.2.length = rs.length
    omega
  · show total_required rs = _
    cases rs <;> simp [total_required]

/-- Both deduplication loops equal the keep-first-occurrence
specification relative to the keys already seen. -/
theorem remove_duplicates_loop_eq (key : RawJob → String) (l : List RawJob) (seen : List String) :
    remove_duplicates_loop key l seen =
      keepFirstOccurrence key (l.filter (fun j => decide (key j ∉ seen))) := by
  induction l generalizing seen with
  | nil => simp [remove_duplicates_loop, keepFirstOccurrence]
  | cons j js ih =>
    by_cases h : key j ∈ seen
    · have hd : decide (key j ∉ seen) = false := by simpa using h
      rw [remove_duplicates_loop, List.filter_cons, hd, if_pos h, ih]
      simp
    · have hd : decide (key j ∉ seen) = true := by simpa using h
      have hf : js.filter (fun j2 => decide (key j2 ∉ key j :: seen)) =
          (js.filter (fun j2 => decide (key j2 ∉ seen))).filter
            (fun j2 => key j2 != key j) := by
        rw [List.filter_filter]
        apply List.filter_congr
        intro a _
        by_cases hk : key a = key j <;> by_cases hs : key a ∈ seen <;>
          simp [hk, hs, bne]
      rw [remove_duplicates_loop, List.filter_cons, hd, if_neg h, ih (key j :: seen), hf]
      conv_rhs => rw [keepFirstOccurrence.eq_def]
      simp

/-- C3 (amended): each deduplicator keeps exactly the first occurrence
of its own identity key — but only `SimpleScraperAgent` trims; its key
is the lower-cased, trimmed `title|company`, so the scenario pair
collapses to one entry there, while `ScraperAgent` keys on the
lower-cased, untrimmed `title_company` and keeps both scenario
listings. -/
theorem dedup_first_occurrence_amended :
    (∀ jobs : List RawJob,
      scraper_remove_duplicates jobs = keepFirstOccurrence scraperJobKey jobs ∧
      simple_remove_duplicates jobs = keepFirstOccurrence simpleJobKey jobs) ∧
    simple_remove_duplicates [backendListingA, backendListingB] = [backendListingA] ∧
    scraper_remove_duplicates [backendListingA, backendListingB] =
      [backendListingA, backendListingB] := by
  refine ⟨fun jobs => ⟨?_, ?_⟩, by decide, by decide⟩
  · rw [scraper_remove_duplicates, remove_duplicates_loop_eq]
    simp
  · rw [simple_remove_duplicates, remove_duplicates_loop_eq]
    simp

/-- C3 (counterexample): the claim says the two scenario listings
("Backend Engineer", "Acme") and ("backend engineer", " Acme ")
deduplicate to exactly one entry, with a lower-cased **trimmed**
identity key; `ScraperAgent._remove_duplicates` does not trim, so it
returns two entries on that very input. -/
theorem dedup_scenario_counterexample :
    (scraper_remove_duplicates [backendListingA, backendListingB]).length = 2 ∧
    (scraper_remove_duplicates [backendListingA, backendListingB]).length ≠ 1 := by decide

/-- The dispatch loop adds one to the counter per successful result and
never drives the counter past the ceiling. -/
theorem apply_loop_spec (maxPerDay : Nat) (tasks : List ApplyTask) (count : Nat) :
    ((apply_loop maxPerDay tasks count).2 =
      count + ((apply_loop maxPerDay tasks count).1.filter (fun r => r.success)).length) ∧
    (count ≤ maxPerDay → (apply_loop maxPerDay tasks count).2 ≤ maxPerDay) := by
  induction tasks generalizing count with
  | nil => simp [apply_loop]
  | cons t ts ih =>
    by_cases h : maxPerDay ≤ count
    · simp [apply_loop, h]
    · cases ht : t.outcome with
      | notFound => simpa [apply_loop, h, ht] using ih count
      | alreadyApplied => simpa [apply_loop, h, ht] using ih count
      | raises m =>
        have := ih count
        simp [apply_loop, h, ht]
        constructor
        · exact this.1
        · intro hc
          exact this.2 hc
      | completes ok =>
        cases ok
        · have := ih count
          simp [apply_loop, h, ht]
          exact ⟨this.1, this.2⟩
        · have := ih (count + 1)
          have hcc : count + 1 ≤ maxPerDay := by omega
          simp [apply_loop, h, ht]
          constructor
          · rw [this.1]; omega
          · intro _
            exact this.2 hcc

/-- C4 (amended): the daily counter increments by exactly one per
successful submission, never exceeds the ceiling when it starts at or
below it, and a dispatch that finds the counter at the ceiling returns
no results leaving the counter unchanged.  The counter is set from
`_get_applications_today` only when the agent is initialized; no reset
happens at dispatch time after a day boundary (see the
counterexample). -/
theorem quota_ceiling_amended (maxPerDay count : Nat) (tasks : List ApplyTask) :
    ((apply_loop maxPerDay tasks count).2 =
      count + ((apply_loop maxPerDay tasks count).1.filter (fun r => r.success)).length) ∧
    (count ≤ maxPerDay → (apply_loop maxPerDay tasks count).2 ≤ maxPerDay) ∧
    (maxPerDay ≤ count →
      auto_apply_to_jobs true true maxPerDay count tasks = .ok ([], count)) := by
  refine ⟨(apply_loop_spec maxPerDay tasks count).1,
    (apply_loop_spec maxPerDay tasks count).2, ?_⟩
  intro h
  simp [auto_apply_to_jobs, h]

/-- Witness for C4 (amended) at a ceiling of 2 and the three-task
scenario batch. -/
theorem quota_ceiling_witness :
    ((apply_loop 2 scenarioTasks 0).2 =
      0 + ((apply_loop 2 scenarioTasks 0).1.filter (fun r => r.success)).length) ∧
    (0 ≤ 2 ∧ (apply_loop 2 scenarioTasks 0).2 ≤ 2) ∧
    (2 ≤ 2 ∧ auto_apply_to_jobs true true 2 2 scenarioTasks = .ok ([], 2)) :=
  ⟨(quota_ceiling_amended 2 0 scenarioTasks).1,
   ⟨by decide, (quota_ceiling_amended 2 0 scenarioTasks).2.1 (by decide)⟩,
   ⟨by decide, (quota_ceiling_amended 2 2 scenarioTasks).2.2 (by decide)⟩⟩

/-- C4 (counterexample): the claim's day-boundary reset does not exist
in the code.  At the first dispatch after a day boundary the true count
of the new day is `get_applications_today = 0`, strictly below the
ceiling 1, so under the claim the submission should proceed after the
reset; the code only compares the carried counter (1) with the ceiling
and refuses the batch, returning no results and leaving the counter
at 1 — `auto_apply_to_jobs` does not even take the current day as an
input. -/
theorem quota_no_day_reset_counterexample :
    auto_apply_to_jobs true true 1 1 [⟨42, .completes true⟩] = .ok ([], 1) ∧
    get_applications_today = 0 ∧ get_applications_today < 1 :=
  ⟨rfl, rfl, by decide⟩

/-- When no task is skipped and the quota cannot bind, the loop yields
exactly one result per task in order. -/
theorem apply_loop_all_processed (maxPerDay : Nat) (tasks : List ApplyTask) (count : Nat)
    (hq : count + tasks.length ≤ maxPerDay)
    (hs : ∀ t ∈ tasks, t.outcome ≠ TaskOutcome.notFound ∧
      t.outcome ≠ TaskOutcome.alreadyApplied) :
    apply_loop maxPerDay tasks count =
      (tasks.map expectedResult,
        count + (tasks.filter
          (fun t => decide (t.outcome = TaskOutcome.completes true))).length) := by
  induction tasks generalizing count with
  | nil => simp [apply_loop]
  | cons t ts ih =>
    have hcnt : ¬ maxPerDay ≤ count := by
      simp only [List.length_cons] at hq
      omega
    have hts : ∀ t ∈ ts, t.outcome ≠ TaskOutcome.notFound ∧
        t.outcome ≠ TaskOutcome.alreadyApplied :=
      fun x hx => hs x (List.mem_cons_of_mem _ hx)
    have hqt : count + ts.length ≤ maxPerDay := by
      simp only [List.length_cons] at hq
      omega
    cases ht : t.outcome with
    | notFound => exact absurd ht (hs t (List.mem_cons_self _ _)).1
    | alreadyApplied => exact absurd ht (hs t (List.mem_cons_self _ _)).2
    | raises m =>
      have hi := ih count hqt hts
      simp [apply_loop, hcnt, ht, hi, expectedResult]
    | completes ok =>
      cases ok with
      | false =>
        have hi := ih count hqt hts
        simp [apply_loop, hcnt, ht, hi, expectedResult]
      | true =>
        have hq1 : count + 1 + ts.length ≤ maxPerDay := by
          simp only [List.length_cons] at hq
          omega
        have hi := ih (count + 1) hq1 hts
        simp [apply_loop, hcnt, ht, hi, expectedResult]
        omega

/-- C5 (amended): every task that is dispatched — found, not already
applied, and not cut off by the quota — yields exactly one
`ApplicationResult`, in task order; a task that raises yields a failed
result and does not stop the processing of subsequent tasks.  Tasks
whose job lookup fails or that were already applied are skipped with no
result at all (see the counterexample). -/
theorem dispatch_results_amended (maxPerDay count : Nat) (tasks : List ApplyTask)
    (hq : count + tasks.length ≤ maxPerDay)
    (hs : ∀ t ∈ tasks, t.outcome ≠ TaskOutcome.notFound ∧
      t.outcome ≠ TaskOutcome.alreadyApplied) :
    auto_apply_to_jobs true true maxPerDay count tasks =
      .ok (tasks.map expectedResult,
        count + (tasks.filter
          (fun t => decide (t.outcome = TaskOutcome.completes true))).length) := by
  by_cases hc : maxPerDay ≤ count
  · have hnil : tasks = [] := by
      cases tasks with
      | nil => rfl
      | cons a l =>
        simp only [List.length_cons] at hq
        omega
    subst hnil
    simp [auto_apply_to_jobs, hc]
  · simp [auto_apply_to_jobs, hc, apply_loop_all_processed maxPerDay tasks count hq hs]

/-- Witness for C5 (amended): the scenario batch — three tasks of which
task 2 raises a submission error — still returns three results, with
tasks 1 and 3 processed independently and successfully. -/
theorem dispatch_results_witness :
    (0 + scenarioTasks.length ≤ 10) ∧
    (∀ t ∈ scenarioTasks, t.outcome ≠ TaskOutcome.notFound ∧
      t.outcome ≠ TaskOutcome.alreadyApplied) ∧
    auto_apply_to_jobs true true 10 0 scenarioTasks =
      .ok ([⟨1, true⟩, ⟨2, false⟩, ⟨3, true⟩], 2) :=
  ⟨by decide, by decide, by
    rw [dispatch_results_amended 10 0 scenarioTasks (by decide) (by decide)]
    rfl⟩

/-- C5 (counterexample): the claim's "exactly one ApplicationResult per
task" fails for skipped tasks — a batch of one task whose job lookup
returns nothing produces zero results, not one. -/
theorem dispatch_skipped_task_counterexample :
    auto_apply_to_jobs true true 10 0 [⟨7, .notFound⟩] = .ok ([], 0) ∧
    ([] : List ApplicationResult).length ≠ [ApplyTask.mk 7 .notFound].length :=
  ⟨rfl, by decide⟩

/-- The ghost run count always matches the running flag along any event
sequence. -/
theorem orchStep_inv (evs : List OrchEvent) :
    ∀ s : OrchState, s.active = (if s.running then 1 else 0) →
      (evs.foldl orchStep s).active = (if (evs.foldl orchStep s).running then 1 else 0) := by
  induction evs with
  | nil => intro s hs; simpa using hs
  | cons e evs ih =>
    intro s hs
    refine ih _ ?_
    cases e with
    | trigger => by_cases h : s.running <;> simp [orchStep, h, hs]
    | finish => by_cases h : s.running <;> simp [orchStep, h, hs]

/-- C6: a trigger arriving while a run is `Running` returns the busy
outcome and leaves the flag untouched; a trigger starting from idle
always ends with the flag cleared (both on completion and on failure);
and along every event sequence from the initial state at most one
workflow run is executing at any instant. -/
theorem workflow_mutual_exclusion :
    (∀ bodyFails, trigger_job_search true bodyFails =
      ({ success := false, status := some "busy" }, true)) ∧
    (∀ bodyFails, (trigger_job_search false bodyFails).2 = false) ∧
    (∀ evs : List OrchEvent, (orchRun evs).active ≤ 1) := by
  refine ⟨fun _ => rfl, fun bf => by cases bf <;> rfl, fun evs => ?_⟩
  have h := orchStep_inv evs orchInit (by simp [orchInit])
  rw [orchRun, h]
  split <;> omega

/-- C7: a lookup whose normalized key matches a cached entry `r` is a
hit exactly when `now - r.timestamp < max_cache_age`: on a hit the
identical cached payload is returned and the cache is untouched (no
recomputation); once the TTL has expired the search is recomputed, and
on a successful scrape the entry under that key is overwritten with the
fresh payload stamped `now`. -/
theorem cache_ttl_semantics (cache : List (String × SearchResult)) (p : SearchParams)
    (now : Int) (scrape : Except String (List RawJob)) (r : SearchResult)
    (hl : cache.lookup (create_cache_key p) = some r) :
    (now - r.timestamp < max_cache_age →
      trigger_job_search_cached cache p now scrape = (r, cache)) ∧
    (max_cache_age ≤ now - r.timestamp →
      (trigger_job_search_cached cache p now scrape =
        perform_search cache (create_cache_key p) now scrape) ∧
      ∀ jobs, scrape = Except.ok jobs →
        (trigger_job_search_cached cache p now scrape).2.lookup (create_cache_key p) =
          some { success := true, jobs := jobs, total_found := jobs.length
                 timestamp := now, cache_key := create_cache_key p, error := none }) := by
  constructor
  · intro h
    simp only [trigger_job_search_cached, hl, if_pos h]
  · intro h
    have hn : ¬ (now - r.timestamp < max_cache_age) := not_lt.mpr h
    refine ⟨by simp only [trigger_job_search_cached, hl, if_neg hn], ?_⟩
    intro jobs hj
    subst hj
    simp only [trigger_job_search_cached, hl, if_neg hn, perform_search, cacheStore]
    simp [List.lookup]

/-- Witness for C7: a one-entry cache created at time 0; a lookup with
equivalently normalized parameters at `now = 100` hits and returns the
identical payload, while at `now = 5000` (past the 3600-second TTL) the
entry is recomputed and overwritten with a payload stamped 5000. -/
theorem cache_ttl_semantics_witness :
    (cacheExample.lookup (create_cache_key paramsExample) = some cachedResultExample) ∧
    ((100 : Int) - cachedResultExample.timestamp < max_cache_age ∧
      trigger_job_search_cached cacheExample paramsExample 100 (.ok []) =
        (cachedResultExample, cacheExample)) ∧
    (max_cache_age ≤ (5000 : Int) - cachedResultExample.timestamp ∧
      (trigger_job_search_cached cacheExample paramsExample 5000
          (.ok [backendListingB])).2.lookup (create_cache_key paramsExample) =
        some { success := true, jobs := [backendListingB], total_found := 1
               timestamp := 5000, cache_key := create_cache_key paramsExample
               error := none }) :=
  ⟨rfl,
   ⟨by decide,
    (cache_ttl_semantics cacheExample paramsExample 100 (.ok [])
      cachedResultExample rfl).1 (by decide)⟩,
   ⟨by decide,
    by
      have h := ((cache_ttl_semantics cacheExample paramsExample 5000
        (.ok [backendListingB]) cachedResultExample rfl).2 (by decide)).2
        [backendListingB] rfl
      simpa using h⟩⟩

/-- `dict.update` modelled as an association list is reversed
prepending. -/
theorem dictUpdate_eq_reverse_append (updates d : List (String × ConfigVal)) :
    dictUpdate d updates = updates.reverse ++ d := by
  induction updates generalizing d with
  | nil => simp [dictUpdate]
  | cons kv rest ih =>
    show dictUpdate (kv :: d) rest = _
    rw [ih (kv :: d)]
    simp

/-- Association-list lookup distributes over append. -/
theorem lookup_append_cfg (l₁ l₂ : List (String × ConfigVal)) (k : String) :
    (l₁ ++ l₂).lookup k = ((l₁.lookup k).orElse (fun _ => l₂.lookup k)) := by
  induction l₁ with
  | nil => simp [List.lookup]
  | cons a l ih =>
    by_cases h : k == a.1
    · simp [List.lookup, h]
    · simp only [List.cons_append, List.lookup, h]
      exact ih

/-- Lookup of a member under duplicate-free keys. -/
theorem lookup_of_mem_nodup_cfg (l : List (String × ConfigVal)) (k : String) (v : ConfigVal)
    (hn : (l.map Prod.fst).Nodup) (hm : (k, v) ∈ l) : l.lookup k = some v := by
  induction l with
  | nil => cases hm
  | cons a l ih =>
    rcases List.mem_cons.mp hm with he | ht
    · subst he
      simp [List.lookup]
    · have hk : k ≠ a.1 := by
        intro he
        have : a.1 ∈ l.map Prod.fst := he ▸ List.mem_map.mpr ⟨(k, v), ht, he ▸ rfl⟩
        exact (List.nodup_cons.mp hn).1 this
      have hb : (k == a.1) = false := by
        simpa using hk
      simp only [List.lookup, hb]
      exact ih (List.nodup_cons.mp hn).2 ht

/-- C8 (amended): an update containing any key outside the recognized
set `{scraping_interval_hours, scoring_threshold, max_auto_applications,
auto_apply_enabled, follow_up_interval_days}` is rejected wholesale,
leaving the prior configuration entirely unchanged; an update containing
only keys from that set succeeds and applies all of its entries.  The
source's recognized set does not include `max_applications_per_day`
(see the counterexample). -/
theorem config_update_amended (config updates : List (String × ConfigVal)) :
    (((updates.map Prod.fst).filter (fun k => !(valid_config_keys.contains k))) ≠ [] →
      update_configuration config updates =
        ({ success := false, error := some "Invalid configuration keys" }, config)) ∧
    ((∀ k ∈ updates.map Prod.fst, k ∈ valid_config_keys) →
      (update_configuration config updates).1 =
        { success := true, error := none } ∧
      ((updates.map Prod.fst).Nodup →
        ∀ kv ∈ updates,
          (update_configuration config updates).2.lookup kv.1 = some kv.2)) := by
  constructor
  · intro h
    have he : ((updates.map Prod.fst).filter
        (fun k => !(valid_config_keys.contains k))).isEmpty = false := by
      cases hc : (updates.map Prod.fst).filter (fun k => !(valid_config_keys.contains k)) with
      | nil => exact absurd hc h
      | cons a l => simp [hc]
    simp only [update_configuration, he]
    rfl
  · intro hall
    have hinv : (updates.map Prod.fst).filter
        (fun k => !(valid_config_keys.contains k)) = [] := by
      rw [List.filter_eq_nil_iff]
      intro k hk
      simp [hall k hk]
    constructor
    · simp only [update_configuration, hinv]
      rfl
    · intro hnod kv hm
      have h2 : (update_configuration config updates).2 = dictUpdate config updates := by
        simp only [update_configuration, hinv]
        rfl
      rw [h2, dictUpdate_eq_reverse_append, lookup_append_cfg]
      have hl : updates.reverse.lookup kv.1 = some kv.2 := by
        refine lookup_of_mem_nodup_cfg _ _ _ ?_ (List.mem_reverse.mpr hm)
        rw [List.map_reverse, List.nodup_reverse]
        exact hnod
      simp [hl]

/-- C8 (counterexample): the claim's recognized set includes
`max_applications_per_day`, so an update containing only that key should
succeed; the source's `valid_keys` omits it, so the very same update is
rejected and the configuration left unchanged. -/
theorem config_update_counterexample :
    (update_configuration default_config badUpdates).1.success = false ∧
    (update_configuration default_config badUpdates).2 = default_config ∧
    "max_applications_per_day" ∉ valid_config_keys :=
  ⟨rfl, rfl, by decide⟩

/-- Witness for C8 (amended): the rejected single-key update and an
accepted two-key update with its entries applied. -/
theorem config_update_witness :
    (((badUpdates.map Prod.fst).filter (fun k => !(valid_config_keys.contains k))) ≠ [] ∧
      update_configuration default_config badUpdates =
        ({ success := false, error := some "Invalid configuration keys" },
          default_config)) ∧
    ((∀ k ∈ exampleUpdates.map Prod.fst, k ∈ valid_config_keys) ∧
      (update_configuration default_config exampleUpdates).1 =
        { success := true, error := none } ∧
      ((exampleUpdates.map Prod.fst).Nodup ∧
        (update_configuration default_config exampleUpdates).2.lookup "scoring_threshold" =
          some (ConfigVal.num (1/2)))) :=
  ⟨⟨by decide, (config_update_amended default_config badUpdates).1 (by decide)⟩,
   ⟨by decide, ((config_update_amended default_config exampleUpdates).2 (by decide)).1,
    ⟨by decide,
     ((config_update_amended default_config exampleUpdates).2 (by decide)).2 (by decide)
       ("scoring_threshold", ConfigVal.num (1/2)) (List.mem_cons_self _ _)⟩⟩⟩

/-- C9: the extractors are total functions of their input, and for
missing (`none`) or empty text each short-circuits before consulting
any pattern — regardless of the regular-expression engine — returning
an empty skill list, an empty benefit list, and no company-size
signal. -/
theorem extraction_empty_input_safe (search : String → String → Bool) :
    extract_skills_from_job_text search none = [] ∧
    extract_skills_from_job_text search (some "") = [] ∧
    extract_benefits_from_text search none = [] ∧
    extract_benefits_from_text search (some "") = [] ∧
    extract_company_size_from_text search none = none ∧
    extract_company_size_from_text search (some "") = none :=
  ⟨rfl, rfl, rfl, rfl, rfl, rfl⟩
